import Mathlib

/-!
Shallow embedding of the browser extension's capture scheduler
(`browser_extension/content.js`) and session manager
(`browser_extension/background.js`), with proofs of the specified
properties of backoff, de-duplication, heartbeat scheduling, token
caching, redirect resolution, logout, and PKCE challenge derivation.

Times are epoch milliseconds, modelled as `Nat` (the platform clock is
non-negative).  JavaScript `null`/absent values are modelled as `none`;
JavaScript truthiness of strings (`"" is falsy`) and numbers
(`0`/`NaN`/`null` are falsy) is modelled explicitly.
-/

/-- Constant `DEDUP_CHARS` from content.js: first N chars used to dedupe. -/
def DEDUP_CHARS : Nat := 200

/-- Constant `MAX_BACKOFF_MULT` from content.js. -/
def MAX_BACKOFF_MULT : Nat := 8

/-- Constant `HEARTBEAT_BASE` from content.js: default heartbeat interval while idle. -/
def HEARTBEAT_BASE : Nat := 20000

/-- The backoff update performed by `postCapture` in content.js once a delivery
settles: on a non-ok response or a transport error it runs
`backoffMult = Math.min(MAX_BACKOFF_MULT, backoffMult * 2)`, and on a
successful response it runs `backoffMult = 1`.  `ok = true` models delivery
success. -/
def postCaptureBackoff (backoffMult : Nat) (ok : Bool) : Nat :=
  if ok then 1 else min MAX_BACKOFF_MULT (backoffMult * 2)

/-- The backoff multiplier after feeding a whole sequence of delivery outcomes
into the scheduler state, starting from the initial `backoffMult = 1` of
content.js. -/
def runBackoff (outcomes : List Bool) : Nat :=
  outcomes.foldl postCaptureBackoff 1

/-- Fingerprint of a sample: `(text || '').slice(0, DEDUP_CHARS)` from
`captureNow` in content.js (the value assigned to `hash`). -/
def fingerprint (text : String) : String :=
  String.mk (text.data.take DEDUP_CHARS)

/-- One `captureNow` attempt from content.js, as a transition on the scheduler
state relevant to de-duplication.  `visible` models
`document.visibilityState === 'visible'`; `text` is the result of
`visibleViewportText()`; `lastCapturedHash` is the in-memory dedup state
(`null` initially, modelled `none`).  Returns the new `lastCapturedHash` and
whether the sample was handed to `postCapture` — the only path that performs a
network call or touches the backoff state. -/
def captureNow (visible : Bool) (text : String) (lastCapturedHash : Option String) :
    Option String × Bool :=
  if visible = false then (lastCapturedHash, false)
  else
    let hash := fingerprint text
    if hash = "" then (lastCapturedHash, false)
    else if some hash = lastCapturedHash then (lastCapturedHash, false)
    else (some hash, true)

/-- A sequence of `captureNow` attempts on a visible page, threading the
`lastCapturedHash` state; returns the final state and, per attempt, whether it
was delivered. -/
def runCaptureSeq (texts : List String) : Option String × List Bool :=
  texts.foldl
    (fun acc t =>
      let r := captureNow true t acc.1
      (r.1, acc.2 ++ [r.2]))
    (none, [])

/-- Function `effectiveInterval()` from content.js:
`HEARTBEAT_BASE * backoffMult * getSaveDataFactor() * batteryFactor`. -/
def effectiveInterval (backoffMult saveDataFactor batteryFactor : Nat) : Nat :=
  HEARTBEAT_BASE * backoffMult * saveDataFactor * batteryFactor

/-- The delay actually passed to `setTimeout` by `scheduleHeartbeat` in
content.js: `Math.max(5000, effectiveInterval())`. -/
def heartbeatDelay (backoffMult saveDataFactor batteryFactor : Nat) : Nat :=
  max 5000 (effectiveInterval backoffMult saveDataFactor batteryFactor)

/-- The keys of `chrome.storage.local` written by background.js.  Field
`auth_state` models key `_auth_state` (the PKCE nonce sent as `state`) and
`code_verifier` models key `_code_verifier`; `user_email` models the cached
identity.  `none` models an absent key or a stored `null`; for
`access_token_expires_at` it also covers a stored `NaN`, which behaves exactly
like `null` in every read of that key (both are falsy). -/
structure LocalStorage where
  access_token : Option String
  access_token_expires_at : Option Nat
  auth_state : Option String
  code_verifier : Option String
  user_email : Option String
deriving DecidableEq, Repr

/-- JavaScript truthiness of a possibly-absent string: `null`/absent and the
empty string are falsy. -/
def truthyStr : Option String → Bool
  | none => false
  | some s => s != ""

/-- JavaScript truthiness of a possibly-absent epoch-ms number: `null`/absent,
`NaN` (folded into `none`, see `LocalStorage`) and `0` are falsy. -/
def truthyNum : Option Nat → Bool
  | none => false
  | some n => n != 0

/-- The cached-credential validity test on line 107 of background.js:
`stored.access_token && stored.access_token_expires_at &&
stored.access_token_expires_at > now + 30000`. -/
def tokenFresh (store : LocalStorage) (now : Nat) : Bool :=
  truthyStr store.access_token && truthyNum store.access_token_expires_at &&
    decide (store.access_token_expires_at.getD 0 > now + 30000)

/-- Function `getToken({interactive})` from background.js.  `flowResult` models
the outcome of `startAuthFlow()` were it invoked (`none` models a throw, which
`getToken` catches and maps to `null`).  Returns the token handed back to the
caller (`none` models `null`, the no-credential result) paired with whether the
interactive auth flow was started — the only navigation/UI action `getToken`
can perform. -/
def getToken (store : LocalStorage) (now : Nat) (interactive : Bool)
    (flowResult : Option String) : Option String × Bool :=
  if tokenFresh store now then (store.access_token, false)
  else if interactive = false then (none, false)
  else (flowResult, true)

/-- The `AUTH_CONFIG` record at the top of background.js.  `tokenExchangeUrl`
is optional: the comment says to set it only when the provider returns a code;
this build leaves it unset. -/
structure AuthConfig where
  clientId : String
  authUrl : String
  scope : String
  redirectUri : String
  responseType : String
  tokenExchangeUrl : Option String
deriving DecidableEq, Repr

/-- The concrete `AUTH_CONFIG` value of background.js: no `tokenExchangeUrl`
key is defined. -/
def AUTH_CONFIG : AuthConfig :=
  { clientId := "991999948488-qjk1ha86fvfka97ud686e6rfakr6g45c.apps.googleusercontent.com"
    authUrl := "https://accounts.google.com/o/oauth2/v2/auth"
    scope := "openid profile email"
    redirectUri := "https://gdhpboaofomkjkgabhobogcnebgbfoha.chromiumapp.org/"
    responseType := "token"
    tokenExchangeUrl := none }

/-- A parsed authorization redirect URL: the `URLSearchParams` of its fragment
(`redirectUrl.split('#')[1] || ''`) and of its query string
(`u.searchParams`). -/
structure Redirect where
  fragParams : List (String × String)
  queryParams : List (String × String)
deriving DecidableEq, Repr

/-- `URLSearchParams.get(k)`: the value of the first parameter named `k`, or
`null` (modelled `none`) when there is none. -/
def getParam (ps : List (String × String)) (k : String) : Option String :=
  (ps.find? (fun p => p.1 == k)).map Prod.snd

/-- JavaScript `parseInt(s, 10)` restricted to the shapes produced by an
OAuth `expires_in` parameter: the leading run of decimal digits, or `NaN`
(modelled `none`) when there is none. -/
def jsParseInt (s : String) : Option Nat :=
  let digits := s.data.takeWhile Char.isDigit
  if digits.isEmpty then none
  else some (digits.foldl (fun acc c => acc * 10 + (c.toNat - 48)) 0)

/-- Outcome of `startAuthFlow`'s redirect resolution: the promise either
resolves with `{access_token, expires_at}` or rejects with an error message. -/
inductive AuthOutcome where
  | resolved (access_token : String) (expires_at : Option Nat)
  | rejected (msg : String)
deriving DecidableEq, Repr

/-- The expiry computed on line 67 of background.js for a fragment-carried
token: `expiresIn ? Date.now() + parseInt(expiresIn, 10) * 1000 : null` (a
`NaN` from `parseInt` propagates to a falsy stored value, folded into
`none`). -/
def fragExpiresAt (r : Redirect) (now : Nat) : Option Nat :=
  let expiresIn := getParam r.fragParams "expires_in"
  if truthyStr expiresIn then (jsParseInt (expiresIn.getD "")).map (fun n => now + n * 1000)
  else none

/-- The redirect-resolution step of `startAuthFlow` (background.js lines
48-96), run when `launchWebAuthFlow` hands back a parseable `redirectUrl`.
`exchange` models the token-exchange POST were it reached: `none` models a
thrown fetch or a non-ok response (both reject), `some (tok, expiresIn)`
models a parsed `{access_token, expires_in}` body.  The state-mismatch
comparison on lines 59-62 only logs a warning and resolution proceeds
identically, so it does not appear in the result.  Returns the outcome, the
updated store, and whether a token-exchange network request was issued. -/
def resolveRedirect (cfg : AuthConfig) (store : LocalStorage) (now : Nat)
    (r : Redirect) (exchange : Option (String × Option Nat)) :
    AuthOutcome × LocalStorage × Bool :=
  let fragAccessToken := getParam r.fragParams "access_token"
  if truthyStr fragAccessToken then
    let tok := fragAccessToken.getD ""
    let expiresAt := fragExpiresAt r now
    (.resolved tok expiresAt,
      { store with access_token := some tok, access_token_expires_at := expiresAt }, false)
  else
    let code := getParam r.queryParams "code"
    if truthyStr code then
      match cfg.tokenExchangeUrl with
      | none => (.rejected "No tokenExchangeUrl set for code exchange", store, false)
      | some _ =>
        match exchange with
        | none => (.rejected "Token exchange failed", store, true)
        | some (tok, expiresIn) =>
          let expiresAt : Option Nat :=
            match expiresIn with
            | some n => if n != 0 then some (now + n * 1000) else none
            | none => none
          (.resolved tok expiresAt,
            { store with access_token := some tok, access_token_expires_at := expiresAt }, true)
    else (.rejected "No token or code in redirect", store, false)

/-- The `LOGOUT` message handler (background.js lines 166-190).  `revokeOk`
models the outcome of the best-effort revocation fetch; a failure is caught
and only logged (`console.warn`), so the handler continues identically.  The
handler then runs `chrome.storage.local.remove(['access_token',
'access_token_expires_at','_auth_state','_code_verifier'])` unconditionally.
Returns the updated store, whether revocation was attempted, and the `ok`
field of the response. -/
def logoutHandler (store : LocalStorage) (revokeOk : Bool) :
    LocalStorage × Bool × Bool :=
  let attempted := truthyStr store.access_token
  ({ store with
      access_token := none
      access_token_expires_at := none
      auth_state := none
      code_verifier := none }, attempted, true)

/-- Reduction of a computed word to 32 bits, as performed implicitly by the
platform SHA-256 (`crypto.subtle.digest('SHA-256', ...)`). -/
def w32 (n : Nat) : Nat := n % 4294967296

/-- Right rotation of a 32-bit word. -/
def rotr32 (x n : Nat) : Nat := w32 ((x >>> n) ||| (x <<< (32 - n)))

/-- Bitwise complement of a 32-bit word. -/
def not32 (x : Nat) : Nat := x ^^^ 4294967295

/-- The 64 SHA-256 round constants (FIPS 180-4), written in decimal. -/
def sha256K : List Nat :=
  [1116352408, 1899447441, 3049323471, 3921009573, 961987163, 1508970993,
   2453635748, 2870763221, 3624381080, 310598401, 607225278, 1426881987,
   1925078388, 2162078206, 2614888103, 3248222580, 3835390401, 4022224774,
   264347078, 604807628, 770255983, 1249150122, 1555081692, 1996064986,
   2554220882, 2821834349, 2952996808, 3210313671, 3336571891, 3584528711,
   113926993, 338241895, 666307205, 773529912, 1294757372, 1396182291,
   1695183700, 1986661051, 2177026350, 2456956037, 2730485921, 2820302411,
   3259730800, 3345764771, 3516065817, 3600352804, 4094571909, 275423344,
   430227734, 506948616, 659060556, 883997877, 958139571, 1322822218,
   1537002063, 1747873779, 1955562222, 2024104815, 2227730452, 2361852424,
   2428436474, 2756734187, 3204031479, 3329325298]

/-- The initial SHA-256 hash value (FIPS 180-4), written in decimal. -/
def sha256InitH : List Nat :=
  [1779033703, 3144134277, 1013904242, 2773480762,
   1359893119, 2600822924, 528734635, 1541459225]

/-- SHA-256 padding: append `0x80`, zero bytes to 56 mod 64, then the 64-bit
big-endian bit length. -/
def sha256Pad (msg : List Nat) : List Nat :=
  let L := msg.length
  let z := (120 - ((L + 1) % 64)) % 64
  msg ++ 0x80 :: List.replicate z 0 ++
    (List.range 8).map (fun i => (8 * L) >>> (8 * (7 - i)) &&& 255)

/-- Split a padded message into its 64-byte blocks (the first argument is the
number of blocks). -/
def sha256Chunks : Nat → List Nat → List (List Nat)
  | 0, _ => []
  | n + 1, bs => bs.take 64 :: sha256Chunks n (bs.drop 64)

/-- The first 16 words of the message schedule: the block bytes, big-endian. -/
def sha256W16 (chunk : List Nat) : Array Nat :=
  (Array.range 16).map (fun i =>
    (chunk.getD (4 * i) 0) <<< 24 ||| (chunk.getD (4 * i + 1) 0) <<< 16 |||
      (chunk.getD (4 * i + 2) 0) <<< 8 ||| chunk.getD (4 * i + 3) 0)

/-- The full 64-word SHA-256 message schedule of one block. -/
def sha256Schedule (chunk : List Nat) : Array Nat :=
  (List.range 48).foldl
    (fun w j =>
      let i := j + 16
      let x15 := w.getD (i - 15) 0
      let x2 := w.getD (i - 2) 0
      let s0 := rotr32 x15 7 ^^^ rotr32 x15 18 ^^^ (x15 >>> 3)
      let s1 := rotr32 x2 17 ^^^ rotr32 x2 19 ^^^ (x2 >>> 10)
      w.push (w32 (w.getD (i - 16) 0 + s0 + w.getD (i - 7) 0 + s1)))
    (sha256W16 chunk)

/-- One SHA-256 compression round on the working state `[a,b,c,d,e,f,g,h]`. -/
def sha256Round (w : Array Nat) (st : List Nat) (t : Nat) : List Nat :=
  let a := st.getD 0 0
  let b := st.getD 1 0
  let c := st.getD 2 0
  let d := st.getD 3 0
  let e := st.getD 4 0
  let f := st.getD 5 0
  let g := st.getD 6 0
  let h := st.getD 7 0
  let bigS1 := rotr32 e 6 ^^^ rotr32 e 11 ^^^ rotr32 e 25
  let ch := (e &&& f) ^^^ (not32 e &&& g)
  let temp1 := w32 (h + bigS1 + ch + sha256K.getD t 0 + w.getD t 0)
  let bigS0 := rotr32 a 2 ^^^ rotr32 a 13 ^^^ rotr32 a 22
  let maj := (a &&& b) ^^^ (a &&& c) ^^^ (b &&& c)
  let temp2 := w32 (bigS0 + maj)
  [w32 (temp1 + temp2), a, b, c, w32 (d + temp1), e, f, g]

/-- SHA-256 compression of one block into the running hash. -/
def sha256Compress (h : List Nat) (chunk : List Nat) : List Nat :=
  let w := sha256Schedule chunk
  let st := (List.range 64).foldl (sha256Round w) h
  List.zipWith (fun x y => w32 (x + y)) h st

/-- SHA-256 of a byte sequence (FIPS 180-4), the digest
`crypto.subtle.digest('SHA-256', data)` computes; returns the 32 digest
bytes. -/
def sha256 (msg : List Nat) : List Nat :=
  let padded := sha256Pad msg
  let hh := (sha256Chunks (padded.length / 64) padded).foldl sha256Compress sha256InitH
  (hh.map (fun v => [(v >>> 24) &&& 255, (v >>> 16) &&& 255, (v >>> 8) &&& 255, v &&& 255])).flatten

/-- The base64 alphabet used by `btoa`. -/
def B64_CHARS : String :=
  "ABCDEFGHIJKLMNOPQRSTUVWXYZabcdefghijklmnopqrstuvwxyz0123456789+/"

/-- Character of the base64 alphabet at a 6-bit index. -/
def b64Char (n : Nat) : Char := B64_CHARS.data.getD n 'A'

/-- JavaScript `btoa` on a latin-1 binary string, given as its character
codes.  In `sha256Base64Url` the binary string is built with
`String.fromCharCode(bytes[i])`, so its character codes are exactly the digest
bytes; `btoa` is therefore modelled directly on the byte list. -/
def btoa : List Nat → List Char
  | [] => []
  | [b0] =>
    let n := b0 <<< 16
    [b64Char (n >>> 18 &&& 63), b64Char (n >>> 12 &&& 63), '=', '=']
  | [b0, b1] =>
    let n := b0 <<< 16 ||| b1 <<< 8
    [b64Char (n >>> 18 &&& 63), b64Char (n >>> 12 &&& 63), b64Char (n >>> 6 &&& 63), '=']
  | b0 :: b1 :: b2 :: rest =>
    let n := b0 <<< 16 ||| b1 <<< 8 ||| b2
    b64Char (n >>> 18 &&& 63) :: b64Char (n >>> 12 &&& 63) ::
      b64Char (n >>> 6 &&& 63) :: b64Char (n &&& 63) :: btoa rest

/-- The character replacement of background.js line 30:
`.replace(/\+/g, '-').replace(/\//g, '_')`. -/
def toUrlSafeChar (c : Char) : Char :=
  if c = '+' then '-' else if c = '/' then '_' else c

/-- The suffix removal of background.js line 30: `.replace(/=+$/, '')`. -/
def stripTrailingEq (cs : List Char) : List Char :=
  (cs.reverse.dropWhile (fun c => c == '=')).reverse

/-- Function `sha256Base64Url(str)` from background.js (lines 22-31): UTF-8
encode the input, SHA-256 it, base64 the digest bytes via `btoa`, then
translate `+`/`/` to `-`/`_` and strip trailing `=`. -/
def sha256Base64Url (s : String) : String :=
  let data := s.toUTF8.toList.map UInt8.toNat
  let bytes := sha256 data
  let base64 := btoa bytes
  String.mk (stripTrailingEq (base64.map toUrlSafeChar))

/-! ## Helper lemmas -/

lemma min8_pow_succ (k : Nat) : min 8 (min 8 (2 ^ k) * 2) = min 8 (2 ^ (k + 1)) := by
  rcases le_or_lt k 2 with hk | hk
  · have h1 : 2 ^ k ≤ 8 := by
      calc 2 ^ k ≤ 2 ^ 2 := Nat.pow_le_pow_right (by norm_num) hk
        _ ≤ 8 := by norm_num
    rw [Nat.min_eq_right h1, pow_succ]
  · have h1 : 8 ≤ 2 ^ k := by
      calc (8 : Nat) = 2 ^ 3 := by norm_num
        _ ≤ 2 ^ k := Nat.pow_le_pow_right (by norm_num) hk
    have h2 : 8 ≤ 2 ^ (k + 1) := by
      calc (8 : Nat) = 2 ^ 3 := by norm_num
        _ ≤ 2 ^ (k + 1) := Nat.pow_le_pow_right (by norm_num) (by omega)
    rw [min_eq_left h1, min_eq_left h2]
    norm_num

lemma foldl_fail_pow :
    ∀ n k : Nat,
      (List.replicate n false).foldl postCaptureBackoff (min 8 (2 ^ k)) =
        min 8 (2 ^ (k + n)) := by
  intro n
  induction n with
  | zero => intro k; simp
  | succ n ih =>
    intro k
    rw [List.replicate_succ, List.foldl_cons]
    have hstep : postCaptureBackoff (min 8 (2 ^ k)) false = min 8 (2 ^ (k + 1)) := by
      rw [postCaptureBackoff]
      simp only [Bool.false_eq_true, if_false, MAX_BACKOFF_MULT]
      exact min8_pow_succ k
    rw [hstep, ih (k + 1)]
    have : k + 1 + n = k + (n + 1) := by omega
    rw [this]

lemma foldl_backoff_pow (outcomes : List Bool) :
    ∀ b, (∃ k, k ≤ 3 ∧ b = 2 ^ k) →
      ∃ k, k ≤ 3 ∧ outcomes.foldl postCaptureBackoff b = 2 ^ k := by
  induction outcomes with
  | nil => intro b hb; simpa using hb
  | cons o t ih =>
    intro b hb
    obtain ⟨k, hk, rfl⟩ := hb
    cases o with
    | true =>
      rw [List.foldl_cons]
      refine ih _ ⟨0, by norm_num, ?_⟩
      simp [postCaptureBackoff]
    | false =>
      rw [List.foldl_cons]
      refine ih _ ⟨min 3 (k + 1), min_le_left _ _, ?_⟩
      interval_cases k <;> decide

/-! ## Claim theorems -/

/-- C1: feeding any sequence of delivery outcomes into the capture scheduler's
backoff state, `backoffMultiplier` after `n` consecutive failures (from the
initial state or from any point following a success) equals `min(8, 2^n)`, a
single success resets it to 1, and at every point it is a power of two in
`[1, 8]`. -/
theorem backoff_multiplier_spec :
    (∀ n, runBackoff (List.replicate n false) = min 8 (2 ^ n)) ∧
    (∀ pre n, runBackoff (pre ++ true :: List.replicate n false) = min 8 (2 ^ n)) ∧
    (∀ b, postCaptureBackoff b true = 1) ∧
    (∀ outcomes, ∃ k, k ≤ 3 ∧ runBackoff outcomes = 2 ^ k) := by
  have hone : (1 : Nat) = min 8 (2 ^ 0) := by norm_num
  refine ⟨?_, ?_, ?_, ?_⟩
  · intro n
    rw [runBackoff, hone, foldl_fail_pow n 0, Nat.zero_add]
  · intro pre n
    rw [runBackoff, List.foldl_append, List.foldl_cons]
    have hreset : postCaptureBackoff (List.foldl postCaptureBackoff 1 pre) true = 1 := by
      simp [postCaptureBackoff]
    rw [hreset, hone, foldl_fail_pow n 0, Nat.zero_add]
  · intro b
    simp [postCaptureBackoff]
  · intro outcomes
    exact foldl_backoff_pow outcomes 1 ⟨0, by norm_num, by norm_num⟩

/-- C2 counterexample: in the capture sequence `["A", "B", "A"]` the first and
third samples have equal fingerprints, yet the third attempt is delivered
(every delivered-flag is `true`), because `captureNow` compares only against
the immediately preceding emitted fingerprint.  This refutes the claim that
for any two captured samples with equal first-200-character fingerprints the
second is never delivered. -/
theorem capture_dedup_pair_cex :
    fingerprint "A" = fingerprint "A" ∧
    runCaptureSeq ["A", "B", "A"] = (some "A", [true, true, true]) := by
  decide

/-- C2 (amended): a capture attempt whose text is empty or whose
200-character fingerprint equals the last emitted fingerprint is dropped with
no state change and no network call; consequently, of two consecutive capture
attempts with equal fingerprints where the first is delivered, the second is
never delivered. -/
theorem capture_dedup_consecutive :
    (∀ visible text last,
      fingerprint text = "" ∨ some (fingerprint text) = last →
      captureNow visible text last = (last, false)) ∧
    (∀ t u last h,
      captureNow true t last = (h, true) → fingerprint u = fingerprint t →
      captureNow true u h = (h, false)) := by
  constructor
  · intro visible text last hdrop
    cases visible with
    | false => simp [captureNow]
    | true =>
      rcases hdrop with he | hl
      · simp [captureNow, he]
      · by_cases he : fingerprint text = ""
        · simp [captureNow, he]
        · simp [captureNow, he, hl]
  · intro t u last h hcap hfp
    simp only [captureNow] at hcap
    rw [if_neg (by simp)] at hcap
    by_cases hft : fingerprint t = ""
    · rw [if_pos hft] at hcap
      exact absurd (congrArg Prod.snd hcap) (by simp)
    · rw [if_neg hft] at hcap
      by_cases hlast : some (fingerprint t) = last
      · rw [if_pos hlast] at hcap
        exact absurd (congrArg Prod.snd hcap) (by simp)
      · rw [if_neg hlast] at hcap
        have hh : h = some (fingerprint t) := (congrArg Prod.fst hcap).symm
        rw [hh]
        simp [captureNow, hfp, hft]

/-- C2 witness: a concrete empty-text attempt is dropped, and a concrete
repeat of the fingerprint just emitted is dropped. -/
theorem capture_dedup_consecutive_witness :
    captureNow true "" none = (none, false) ∧
    captureNow true "A" (some "A") = (some "A", false) :=
  ⟨capture_dedup_consecutive.1 true "" none (Or.inl (by decide)),
   capture_dedup_consecutive.2 "A" "A" none (some "A") (by decide) rfl⟩

/-- C4: the effective interval and the delay actually scheduled
(`Math.max(5000, effectiveInterval())`) are monotonically non-decreasing in
each of the backoff multiplier, the save-data factor and the battery factor,
and the scheduled delay is never below 5000 ms. -/
theorem heartbeat_delay_monotone_min :
    (∀ b b' s f, b ≤ b' →
      effectiveInterval b s f ≤ effectiveInterval b' s f ∧
      heartbeatDelay b s f ≤ heartbeatDelay b' s f) ∧
    (∀ b s s' f, s ≤ s' →
      effectiveInterval b s f ≤ effectiveInterval b s' f ∧
      heartbeatDelay b s f ≤ heartbeatDelay b s' f) ∧
    (∀ b s f f', f ≤ f' →
      effectiveInterval b s f ≤ effectiveInterval b s f' ∧
      heartbeatDelay b s f ≤ heartbeatDelay b s f') ∧
    (∀ b s f, 5000 ≤ heartbeatDelay b s f) := by
  refine ⟨?_, ?_, ?_, ?_⟩
  · intro b b' s f h
    have he : effectiveInterval b s f ≤ effectiveInterval b' s f := by
      simp only [effectiveInterval]
      gcongr
    exact ⟨he, max_le_max le_rfl he⟩
  · intro b s s' f h
    have he : effectiveInterval b s f ≤ effectiveInterval b s' f := by
      simp only [effectiveInterval]
      gcongr
    exact ⟨he, max_le_max le_rfl he⟩
  · intro b s f f' h
    have he : effectiveInterval b s f ≤ effectiveInterval b s f' := by
      simp only [effectiveInterval]
      gcongr
    exact ⟨he, max_le_max le_rfl he⟩
  · intro b s f
    exact le_max_left _ _

/-- C4 witness: monotonicity instantiated at `1 ≤ 2` in each factor. -/
theorem heartbeat_delay_monotone_min_witness :
    (effectiveInterval 1 1 1 ≤ effectiveInterval 2 1 1 ∧
      heartbeatDelay 1 1 1 ≤ heartbeatDelay 2 1 1) ∧
    (effectiveInterval 1 1 1 ≤ effectiveInterval 1 2 1 ∧
      heartbeatDelay 1 1 1 ≤ heartbeatDelay 1 2 1) ∧
    (effectiveInterval 1 1 1 ≤ effectiveInterval 1 1 2 ∧
      heartbeatDelay 1 1 1 ≤ heartbeatDelay 1 1 2) :=
  ⟨heartbeat_delay_monotone_min.1 1 2 1 1 (by decide),
   heartbeat_delay_monotone_min.2.1 1 1 2 1 (by decide),
   heartbeat_delay_monotone_min.2.2.1 1 1 1 2 (by decide)⟩

/-- C3: non-interactive `getToken` never starts the interactive auth flow (the
only navigation/UI action), returns the no-credential result whenever no token
is cached or the cached expiry lies within 30 s of now, treats an expiry of
`now + 31000` as valid, and treats an expiry of `now + 29000` as expired. -/
theorem getToken_noninteractive_spec :
    (∀ store now fr, (getToken store now false fr).2 = false) ∧
    (∀ store now fr,
      store.access_token = none ∨
        (∃ e, store.access_token_expires_at = some e ∧ e ≤ now + 30000) →
      getToken store now false fr = (none, false)) ∧
    (∀ now tok a v u fr, tok ≠ "" →
      getToken ⟨some tok, some (now + 31000), a, v, u⟩ now false fr = (some tok, false)) ∧
    (∀ now tok a v u fr,
      getToken ⟨some tok, some (now + 29000), a, v, u⟩ now false fr = (none, false)) := by
  refine ⟨?_, ?_, ?_, ?_⟩
  · intro store now fr
    simp only [getToken]
    split <;> simp
  · intro store now fr h
    have hfresh : tokenFresh store now = false := by
      rcases h with hnone | ⟨e, he, hle⟩
      · simp [tokenFresh, hnone, truthyStr]
      · have hc : decide (store.access_token_expires_at.getD 0 > now + 30000) = false := by
          rw [he]
          simp [Option.getD]
          omega
        simp [tokenFresh, hc]
    simp [getToken, hfresh]
  · intro now tok a v u fr htok
    have hfresh : tokenFresh ⟨some tok, some (now + 31000), a, v, u⟩ now = true := by
      simp [tokenFresh, truthyStr, truthyNum, Option.getD, htok]
    simp [getToken, hfresh]
  · intro now tok a v u fr
    have hfresh : tokenFresh ⟨some tok, some (now + 29000), a, v, u⟩ now = false := by
      have : ¬ (now + 29000 > now + 30000) := by omega
      simp [tokenFresh, Option.getD, this]
    simp [getToken, hfresh]

/-- C3 witness: the theorem instantiated at concrete stores; an empty store
yields no credential and no UI, `now + 31000` is served from cache,
`now + 29000` is not. -/
theorem getToken_noninteractive_spec_witness :
    (getToken ⟨none, none, none, none, none⟩ 0 false none).2 = false ∧
    getToken ⟨none, none, none, none, none⟩ 0 false none = (none, false) ∧
    getToken ⟨some "t", some 31000, none, none, none⟩ 0 false none = (some "t", false) ∧
    getToken ⟨some "t", some 29000, none, none, none⟩ 0 false none = (none, false) :=
  ⟨getToken_noninteractive_spec.1 ⟨none, none, none, none, none⟩ 0 none,
   getToken_noninteractive_spec.2.1 ⟨none, none, none, none, none⟩ 0 none (Or.inl rfl),
   getToken_noninteractive_spec.2.2.1 0 "t" none none none none (by decide),
   getToken_noninteractive_spec.2.2.2 0 "t" none none none none⟩

/-- C5: whenever the redirect fragment carries a (truthy) access token, the
flow resolves with exactly that token, stores it, and issues no token-exchange
network request (the third component is `false`). -/
theorem fragment_token_accepted :
    ∀ cfg store now r exch tok,
      getParam r.fragParams "access_token" = some tok → tok ≠ "" →
      resolveRedirect cfg store now r exch =
        (.resolved tok (fragExpiresAt r now),
          { store with
              access_token := some tok
              access_token_expires_at := fragExpiresAt r now }, false) := by
  intro cfg store now r exch tok hget htok
  simp [resolveRedirect, hget, truthyStr, htok]

/-- C5 witness: a concrete redirect whose fragment carries `access_token=tok`
resolves with that token stored and no exchange call. -/
theorem fragment_token_accepted_witness :
    resolveRedirect AUTH_CONFIG ⟨none, none, some "s", some "v", none⟩ 0
        ⟨[("access_token", "tok")], []⟩ none =
      (.resolved "tok" (fragExpiresAt ⟨[("access_token", "tok")], []⟩ 0),
        ⟨some "tok", fragExpiresAt ⟨[("access_token", "tok")], []⟩ 0,
          some "s", some "v", none⟩, false) :=
  fragment_token_accepted AUTH_CONFIG ⟨none, none, some "s", some "v", none⟩ 0
    ⟨[("access_token", "tok")], []⟩ none "tok" (by decide) (by decide)

/-- C6: for every initial store and every revocation outcome, the LOGOUT
handler ends with the cached credential and the PendingAuthState cleared, and
its response is `ok`; the result does not depend on the revocation outcome. -/
theorem logout_clears_credentials :
    ∀ store revokeOk,
      (logoutHandler store revokeOk).1.access_token = none ∧
      (logoutHandler store revokeOk).1.access_token_expires_at = none ∧
      (logoutHandler store revokeOk).1.auth_state = none ∧
      (logoutHandler store revokeOk).1.code_verifier = none ∧
      (logoutHandler store revokeOk).2.2 = true ∧
      logoutHandler store true = logoutHandler store false :=
  fun _ _ => ⟨rfl, rfl, rfl, rfl, rfl, rfl⟩

/-- C7 counterexample: a redirect carrying a fragment token completes its
resolution (outcome `resolved`), yet the PendingAuthState — the persisted
nonce `_auth_state` and `_code_verifier` — is still in the store afterwards
(the redirect even returns a mismatching state, which is only logged).  This
refutes the claim that the PendingAuthState is discarded from the store once
resolution completes. -/
theorem pending_auth_state_not_discarded_cex :
    resolveRedirect AUTH_CONFIG ⟨none, none, some "nonce", some "verifier", none⟩ 0
        ⟨[("access_token", "tok"), ("state", "wrong")], []⟩ none =
      (.resolved "tok" none,
        ⟨some "tok", none, some "nonce", some "verifier", none⟩, false) := by
  decide

/-- C7 (amended): redirect resolution never discards the PendingAuthState:
for every completed resolution (token accepted, code exchanged, or failure)
the persisted nonce and code verifier are left unchanged in the store; they
are only cleared by logout (see the LOGOUT handler) or overwritten by the next
authorization attempt. -/
theorem pending_auth_state_preserved :
    ∀ cfg store now r exch,
      (resolveRedirect cfg store now r exch).2.1.auth_state = store.auth_state ∧
      (resolveRedirect cfg store now r exch).2.1.code_verifier = store.code_verifier := by
  intro cfg store now r exch
  constructor <;>
    · simp only [resolveRedirect]
      repeat' split
      all_goals rfl

/-- C8 counterexample: with an access token present and its expiry absent,
non-interactive `getToken` returns the no-credential result instead of the
cached token — the credential is not treated as non-expiring.  This refutes
the claim that `getToken` returns it from cache. -/
theorem absent_expiry_cached_return_cex :
    getToken ⟨some "tok", none, none, none, none⟩ 1000 false none = (none, false) ∧
    (none : Option String) ≠ some "tok" := by
  decide

/-- C8 (amended): if an access token is present in the store with its expiry
absent, the credential is treated as invalid, not as non-expiring: the cache
check fails and non-interactive `getToken` returns the no-credential
result. -/
theorem absent_expiry_treated_expired :
    ∀ store now fr, store.access_token_expires_at = none →
      getToken store now false fr = (none, false) := by
  intro store now fr h
  have hfresh : tokenFresh store now = false := by
    simp [tokenFresh, h, truthyNum]
  simp [getToken, hfresh]

/-- C8 witness: the amended theorem at a concrete store with a token and no
expiry. -/
theorem absent_expiry_treated_expired_witness :
    getToken ⟨some "tok2", none, none, none, none⟩ 5 false none = (none, false) :=
  absent_expiry_treated_expired ⟨some "tok2", none, none, none, none⟩ 5 none rfl

/-- C10: this build's `AUTH_CONFIG` defines no `tokenExchangeUrl`, so every
redirect carrying a (truthy) authorization code in the query string and no
token in the fragment is rejected before any exchange request is made (third
component `false`) and the store is unchanged — no credential is stored via
that path. -/
theorem code_exchange_unconfigured :
    AUTH_CONFIG.tokenExchangeUrl = none ∧
    ∀ store now r exch code,
      truthyStr (getParam r.fragParams "access_token") = false →
      getParam r.queryParams "code" = some code → code ≠ "" →
      resolveRedirect AUTH_CONFIG store now r exch =
        (.rejected "No tokenExchangeUrl set for code exchange", store, false) := by
  constructor
  · rfl
  · intro store now r exch code hfrag hcode hne
    have htr : truthyStr (getParam r.queryParams "code") = true := by
      rw [hcode]
      simpa [truthyStr] using hne
    simp [resolveRedirect, hfrag, htr, AUTH_CONFIG]

/-- C10 witness: a concrete code-only redirect is rejected with the
no-`tokenExchangeUrl` error, without an exchange call and without touching the
store. -/
theorem code_exchange_unconfigured_witness :
    resolveRedirect AUTH_CONFIG ⟨none, none, none, none, none⟩ 7
        ⟨[], [("code", "abc")]⟩ none =
      (.rejected "No tokenExchangeUrl set for code exchange",
        ⟨none, none, none, none, none⟩, false) :=
  code_exchange_unconfigured.2 ⟨none, none, none, none, none⟩ 7
    ⟨[], [("code", "abc")]⟩ none "abc" (by decide) (by decide) (by decide)

lemma toUrlSafeChar_ne_plus (c : Char) : toUrlSafeChar c ≠ '+' := by
  unfold toUrlSafeChar
  split_ifs with h1 h2
  · decide
  · decide
  · exact h1

lemma toUrlSafeChar_ne_slash (c : Char) : toUrlSafeChar c ≠ '/' := by
  unfold toUrlSafeChar
  split_ifs with h1 h2
  · decide
  · decide
  · exact h2

lemma mem_stripTrailingEq {c : Char} {l : List Char} (h : c ∈ stripTrailingEq l) :
    c ∈ l := by
  unfold stripTrailingEq at h
  rw [List.mem_reverse] at h
  have hsub := List.dropWhile_sublist (l := l.reverse) (fun c => c == '=')
  exact List.mem_reverse.mp (hsub.mem h)

lemma head?_dropWhile_eq_false {α : Type} (p : α → Bool) :
    ∀ (l : List α) (x : α), (l.dropWhile p).head? = some x → p x = false := by
  intro l
  induction l with
  | nil =>
    intro x h
    simp [List.dropWhile] at h
  | cons a t ih =>
    intro x h
    rw [List.dropWhile_cons] at h
    by_cases hpa : p a = true
    · rw [if_pos hpa] at h
      exact ih x h
    · rw [if_neg hpa] at h
      simp at h
      rw [← h]
      exact Bool.not_eq_true _ |>.mp hpa

lemma getLast?_stripTrailingEq (l : List Char) :
    (stripTrailingEq l).getLast? ≠ some '=' := by
  unfold stripTrailingEq
  rw [List.getLast?_reverse]
  intro h
  have := head?_dropWhile_eq_false (fun c => c == '=') l.reverse '=' h
  simp at this

lemma sha256Base64Url_data (v : String) :
    (sha256Base64Url v).data =
      stripTrailingEq ((btoa (sha256 (v.toUTF8.toList.map UInt8.toNat))).map toUrlSafeChar) :=
  rfl

/-- C9: PKCE challenge derivation is deterministic — equal verifier strings
produce equal challenge strings — and every produced challenge is URL-safe
base64 without padding: it contains no `+`, no `/`, and no trailing `=`. -/
theorem sha256Base64Url_deterministic_urlsafe :
    (∀ v1 v2 : String, v1 = v2 → sha256Base64Url v1 = sha256Base64Url v2) ∧
    (∀ v : String,
      '+' ∉ (sha256Base64Url v).data ∧ '/' ∉ (sha256Base64Url v).data ∧
      (sha256Base64Url v).data.getLast? ≠ some '=') := by
  constructor
  · intro v1 v2 h
    rw [h]
  · intro v
    refine ⟨?_, ?_, ?_⟩
    · intro hmem
      rw [sha256Base64Url_data] at hmem
      obtain ⟨c, _, hc⟩ := List.mem_map.mp (mem_stripTrailingEq hmem)
      exact toUrlSafeChar_ne_plus c hc
    · intro hmem
      rw [sha256Base64Url_data] at hmem
      obtain ⟨c, _, hc⟩ := List.mem_map.mp (mem_stripTrailingEq hmem)
      exact toUrlSafeChar_ne_slash c hc
    · rw [sha256Base64Url_data]
      exact getLast?_stripTrailingEq _

/-- C9 witness: determinism instantiated at a concrete verifier string. -/
theorem sha256Base64Url_deterministic_urlsafe_witness :
    sha256Base64Url "codeVerifier0" = sha256Base64Url "codeVerifier0" :=
  sha256Base64Url_deterministic_urlsafe.1 "codeVerifier0" "codeVerifier0" rfl
